import Mathlib

/-!
# Verification of the `fast_s3_url` presigned-URL signer

A shallow embedding of `src/fast_s3_url` (an AWS SigV4 presigned GET-object
URL generator) and proofs of the specification's claims about it.

Python strings are modelled as `List Char` (Python `str` is a sequence of
Unicode code points, as is `List Char` here); Python `bytes` as `List Nat`
with every element below 256.  The cryptographic primitives the code calls
(`hashlib.sha256`, `hmac.new(..., hashlib.sha256)`) are implemented
concretely and executably, following FIPS 180-4 and RFC 2104, so every
definition in this file computes.
-/

/-- A Python string: a sequence of Unicode code points. -/
abbrev PyStr := List Char

/-- Inject a Lean string literal as a `PyStr`. -/
def pyStr (s : String) : PyStr := s.data

/-! ## UTF-8 encoding (`str.encode("utf-8")`) -/

/-- The UTF-8 bytes of one code point. -/
def utf8Char (c : Char) : List Nat :=
  let n := c.toNat
  if n < 128 then [n]
  else if n < 2048 then [192 + n / 64, 128 + n % 64]
  else if n < 65536 then [224 + n / 4096, 128 + n / 64 % 64, 128 + n % 64]
  else [240 + n / 262144, 128 + n / 4096 % 64, 128 + n / 64 % 64, 128 + n % 64]

/-- UTF-8 encoding of a string, as Python's `s.encode("utf-8")`. -/
def utf8 (s : PyStr) : List Nat := (s.map utf8Char).flatten

/-! ## Hex rendering -/

/-- Lowercase hexadecimal digit for a value below 16. -/
def hexDigitLower (n : Nat) : Char :=
  (pyStr "0123456789abcdef").getD n '0'

/-- Uppercase hexadecimal digit for a value below 16. -/
def hexDigitUpper (n : Nat) : Char :=
  (pyStr "0123456789ABCDEF").getD n '0'

/-- Lowercase two-digit hex of one byte. -/
def byteHexLower (b : Nat) : PyStr := [hexDigitLower (b / 16), hexDigitLower (b % 16)]

/-- Lowercase hex string of a byte sequence (Python's `.hexdigest()` output format). -/
def toHex (bs : List Nat) : PyStr := (bs.map byteHexLower).flatten

/-! ## Python's `urllib.parse.quote`

`quote(s, safe=...)` leaves a character literal when it is in Python's
always-safe set (ASCII letters, digits, `_`, `.`, `-`, `~`) or in the given
`safe` string, and otherwise percent-encodes each of its UTF-8 bytes with
uppercase hex digits. -/

/-- `%XX` with uppercase hex, as Python's `quote` emits for one byte. -/
def percentByte (b : Nat) : PyStr := ['%', hexDigitUpper (b / 16), hexDigitUpper (b % 16)]

/-- Python `quote`'s always-safe characters: ASCII letters, digits, and `_.-~`. -/
def alwaysSafe (c : Char) : Bool :=
  ('A' ≤ c && c ≤ 'Z') || ('a' ≤ c && c ≤ 'z') || ('0' ≤ c && c ≤ '9') ||
    c == '_' || c == '.' || c == '-' || c == '~'

/-- The encoding `quote` gives one character. -/
def quoteChar (safe : List Char) (c : Char) : PyStr :=
  if alwaysSafe c || safe.contains c then [c]
  else ((utf8Char c).map percentByte).flatten

/-- Python's `urllib.parse.quote(s, safe=safe)` (the `safe` set given explicitly;
the code under verification always passes `safe="~"` or `safe="/~"`). -/
def pyQuote (s : PyStr) (safe : List Char) : PyStr := (s.map (quoteChar safe)).flatten

/-! ## Decimal rendering of integers (Python's `str(int)`, used by f-strings) -/

/-- Decimal digit character. -/
def digitChar10 (d : Nat) : Char := Char.ofNat (48 + d)

/-- Fuelled most-significant-first digit accumulation. -/
def natDigits : Nat → Nat → PyStr → PyStr
  | 0, _, acc => acc
  | fuel + 1, n, acc =>
    if n < 10 then digitChar10 n :: acc
    else natDigits fuel (n / 10) (digitChar10 (n % 10) :: acc)

/-- Decimal rendering of a natural number. -/
def natToStr (n : Nat) : PyStr := natDigits (n + 1) n []

/-- Decimal rendering of an integer, as Python's `str`: a leading `-` for
negative values, no sign otherwise. -/
def intToStr (i : Int) : PyStr :=
  if i < 0 then '-' :: natToStr i.natAbs else natToStr i.toNat

/-! ## Python string comparison and `sorted`

Python compares strings lexicographically by Unicode code point, which is
exactly Mathlib's linear order on `List Char` (lexicographic over `Char`'s
code-point order).  Python's `sorted` is modelled as `List.insertionSort`
under that order: since the order is antisymmetric on strings, the sorted
permutation of a list is unique, so any correct sort agrees with it. -/

/-- Python's `sorted` on a list of strings. -/
def pySorted (l : List PyStr) : List PyStr := List.insertionSort (· ≤ ·) l

/-! ## SHA-256 (FIPS 180-4), over byte lists, 32-bit words as `Nat` mod `2^32` -/

/-- Right rotation of a 32-bit word. -/
def rotr32 (n x : Nat) : Nat := ((x >>> n) ||| (x <<< (32 - n))) % 4294967296

/-- The eight initial hash values of SHA-256. -/
structure Sha256State where
  a : Nat
  b : Nat
  c : Nat
  d : Nat
  e : Nat
  f : Nat
  g : Nat
  h : Nat

/-- SHA-256 initial state. -/
def sha256Init : Sha256State :=
  ⟨1779033703, 3144134277, 1013904242, 2773480762,
   1359893119, 2600822924, 528734635, 1541459225⟩

/-- The 64 SHA-256 round constants. -/
def sha256K : List Nat :=
  [1116352408, 1899447441, 3049323471, 3921009573,
   961987163, 1508970993, 2453635748, 2870763221,
   3624381080, 310598401, 607225278, 1426881987,
   1925078388, 2162078206, 2614888103, 3248222580,
   3835390401, 4022224774, 264347078, 604807628,
   770255983, 1249150122, 1555081692, 1996064986,
   2554220882, 2821834349, 2952996808, 3210313671,
   3336571891, 3584528711, 113926993, 338241895,
   666307205, 773529912, 1294757372, 1396182291,
   1695183700, 1986661051, 2177026350, 2456956037,
   2730485921, 2820302411, 3259730800, 3345764771,
   3516065817, 3600352804, 4094571909, 275423344,
   430227734, 506948616, 659060556, 883997877,
   958139571, 1322822218, 1537002063, 1747873779,
   1955562222, 2024104815, 2227730452, 2361852424,
   2428436474, 2756734187, 3204031479, 3329325298]

/-- Pack bytes into big-endian 32-bit words, four at a time. -/
def bytesToWords : List Nat → List Nat
  | b0 :: b1 :: b2 :: b3 :: rest =>
    (b0 * 16777216 + b1 * 65536 + b2 * 256 + b3) :: bytesToWords rest
  | _ => []

/-- The small sigma-0 message-schedule function. -/
def ssig0 (x : Nat) : Nat := rotr32 7 x ^^^ rotr32 18 x ^^^ (x >>> 3)

/-- The small sigma-1 message-schedule function. -/
def ssig1 (x : Nat) : Nat := rotr32 17 x ^^^ rotr32 19 x ^^^ (x >>> 10)

/-- Extend a 16-word schedule to 64 words (fuelled, 48 steps). -/
def extendSchedule : Nat → List Nat → List Nat
  | 0, w => w
  | fuel + 1, w =>
    let i := w.length
    let nw := (ssig1 (w.getD (i - 2) 0) + w.getD (i - 7) 0 +
               ssig0 (w.getD (i - 15) 0) + w.getD (i - 16) 0) % 4294967296
    extendSchedule fuel (w ++ [nw])

/-- The big Sigma-0 round function. -/
def bsig0 (x : Nat) : Nat := rotr32 2 x ^^^ rotr32 13 x ^^^ rotr32 22 x

/-- The big Sigma-1 round function. -/
def bsig1 (x : Nat) : Nat := rotr32 6 x ^^^ rotr32 11 x ^^^ rotr32 25 x

/-- One SHA-256 compression round, consuming one `(k, w)` pair. -/
def sha256Round (st : Sha256State) (kw : Nat × Nat) : Sha256State :=
  let t1 := (st.h + bsig1 st.e + ((st.e &&& st.f) ^^^ ((st.e ^^^ 4294967295) &&& st.g)) +
             kw.1 + kw.2) % 4294967296
  let t2 := (bsig0 st.a + ((st.a &&& st.b) ^^^ (st.a &&& st.c) ^^^ (st.b &&& st.c))) % 4294967296
  ⟨(t1 + t2) % 4294967296, st.a, st.b, st.c, (st.d + t1) % 4294967296, st.e, st.f, st.g⟩

/-- Compress one 64-byte block into the running state. -/
def sha256Compress (st : Sha256State) (block : List Nat) : Sha256State :=
  let w := extendSchedule 48 (bytesToWords block)
  let r := (sha256K.zip w).foldl sha256Round st
  ⟨(st.a + r.a) % 4294967296, (st.b + r.b) % 4294967296,
   (st.c + r.c) % 4294967296, (st.d + r.d) % 4294967296,
   (st.e + r.e) % 4294967296, (st.f + r.f) % 4294967296,
   (st.g + r.g) % 4294967296, (st.h + r.h) % 4294967296⟩

/-- Fold the compression over consecutive 64-byte blocks (fuelled). -/
def sha256Blocks : Nat → Sha256State → List Nat → Sha256State
  | 0, st, _ => st
  | _ + 1, st, [] => st
  | fuel + 1, st, bs => sha256Blocks fuel (sha256Compress st (bs.take 64)) (bs.drop 64)

/-- The SHA-256 padding of a message: `0x80`, zeros to 56 mod 64, and the
64-bit big-endian bit length. -/
def sha256Pad (msg : List Nat) : List Nat :=
  let bitLen := 8 * msg.length
  msg ++ 128 :: List.replicate ((119 - msg.length % 64) % 64) 0 ++
    [bitLen >>> 56 % 256, bitLen >>> 48 % 256, bitLen >>> 40 % 256, bitLen >>> 32 % 256,
     bitLen >>> 24 % 256, bitLen >>> 16 % 256, bitLen >>> 8 % 256, bitLen % 256]

/-- Big-endian bytes of one 32-bit word. -/
def wordBytes (w : Nat) : List Nat := [w >>> 24 % 256, w >>> 16 % 256, w >>> 8 % 256, w % 256]

/-- The 32 digest bytes of a final state. -/
def sha256StateBytes (st : Sha256State) : List Nat :=
  wordBytes st.a ++ wordBytes st.b ++ wordBytes st.c ++ wordBytes st.d ++
    wordBytes st.e ++ wordBytes st.f ++ wordBytes st.g ++ wordBytes st.h

/-- SHA-256 of a byte sequence: the 32 digest bytes. -/
def sha256 (msg : List Nat) : List Nat :=
  let padded := sha256Pad msg
  sha256StateBytes (sha256Blocks padded.length sha256Init padded)

/-! ## HMAC-SHA256 (RFC 2104), as Python's `hmac.new(key, data, hashlib.sha256)` -/

/-- HMAC-SHA256 digest bytes. -/
def hmacSha256 (key msg : List Nat) : List Nat :=
  let k0 := if 64 < key.length then sha256 key else key
  let kp := k0 ++ List.replicate (64 - k0.length) 0
  sha256 ((kp.map (fun b => b ^^^ 92)) ++ sha256 ((kp.map (fun b => b ^^^ 54)) ++ msg))

/-- The code's `_hmac_bytes(key, data)`: `hmac.new(key, data, sha256).digest()`. -/
def hmac_bytes (key data : List Nat) : List Nat := hmacSha256 key data

/-- The code's `_hmac_hex(key, data)`: `hmac.new(key, data, sha256).hexdigest()`. -/
def hmac_hex (key data : List Nat) : PyStr := toHex (hmacSha256 key data)

/-- The code's `_derive_signing_key(key, datestamp, region, service)`: the four
chained HMAC-SHA256 steps of SigV4 key derivation. -/
def derive_signing_key (key : List Nat) (datestamp region service : PyStr) : List Nat :=
  let k_date := hmac_bytes (utf8 (pyStr "AWS4") ++ key) (utf8 datestamp)
  let k_region := hmac_bytes k_date (utf8 region)
  let k_service := hmac_bytes k_region (utf8 service)
  hmac_bytes k_service (utf8 (pyStr "aws4_request"))

/-! ## Credentials (`src/fast_s3_url/credentials.py`)

`Credentials` and its subclass `CredentialsWithToken` are frozen dataclasses;
the signer branches once on `isinstance(credentials, CredentialsWithToken)`,
so the pair is modelled as a two-variant inductive. -/

/-- `Credentials` / `CredentialsWithToken`. -/
inductive Credentials where
  | plain (access_key secret_key : PyStr)
  | withToken (access_key secret_key session_token : PyStr)

/-- The `access_key` field. -/
def Credentials.access_key : Credentials → PyStr
  | .plain ak _ => ak
  | .withToken ak _ _ => ak

/-- The `secret_key` field. -/
def Credentials.secret_key : Credentials → PyStr
  | .plain _ sk => sk
  | .withToken _ sk _ => sk

/-- The code's `isinstance(self.credentials, CredentialsWithToken)` test. -/
def Credentials.hasToken : Credentials → Bool
  | .plain _ _ => false
  | .withToken _ _ _ => true

/-! ## Signer construction (`FastS3UrlSigner.__init__`) -/

/-- Python's `s.rstrip("/")` generalised to one character: drop every trailing
occurrence. -/
def rstripChar (c : Char) (s : PyStr) : PyStr :=
  (s.reverse.dropWhile (· == c)).reverse

/-- ASCII lowercasing of one character (Python lowercases the URL scheme). -/
def asciiLower (c : Char) : Char :=
  if 'A' ≤ c && c ≤ 'Z' then Char.ofNat (c.toNat + 32) else c

/-- The result of `urllib.parse.urlparse`: scheme, netloc, path, params,
query, fragment. -/
structure UrlParseResult where
  scheme : PyStr
  netloc : PyStr
  path : PyStr
  params : PyStr
  query : PyStr
  fragment : PyStr

/-- The characters CPython's `urlsplit` removes from the URL before parsing
(`_UNSAFE_URL_BYTES_TO_REMOVE`: tab, carriage return, newline). -/
def urlUnsafeChar (c : Char) : Bool := c == '\t' || c == '\r' || c == '\n'

/-- The characters allowed in a URL scheme (CPython's `scheme_chars`): ASCII
letters, digits, `+`, `-`, `.`. -/
def isSchemeChar (c : Char) : Bool :=
  c.isAlpha || c.isDigit || c == '+' || c == '-' || c == '.'

/-- A character at which a netloc ends (`_splitnetloc` cuts at the earliest
of `/`, `?`, `#`). -/
def netlocEnd (c : Char) : Bool := c == '/' || c == '?' || c == '#'

/-- Modelled from the scheme step of CPython's `urllib.parse.urlsplit`: when a
`:` occurs and the text before it starts with an ASCII letter and continues
with scheme characters, that text is the scheme, lowercased, and the rest
follows the colon; otherwise there is no scheme.  (A `:` at position 0 fails
the letter test; the `headD` default is only consulted on the empty string,
whose `dropWhile` already takes the no-scheme branch.) -/
def splitScheme (u : PyStr) : PyStr × PyStr :=
  match u.dropWhile (· ≠ ':') with
  | ':' :: rest =>
    if (u.headD ' ').isAlpha && (u.takeWhile (· ≠ ':')).all isSchemeChar then
      ((u.takeWhile (· ≠ ':')).map asciiLower, rest)
    else ([], u)
  | _ => ([], u)

/-- Modelled from `_splitnetloc`: after a leading `//`, the netloc runs to the
first `/`, `?` or `#`; without a leading `//` there is no netloc. -/
def splitNetloc (u : PyStr) : PyStr × PyStr :=
  match u with
  | '/' :: '/' :: rest =>
    (rest.takeWhile (fun c => !netlocEnd c), rest.dropWhile (fun c => !netlocEnd c))
  | _ => ([], u)

/-- `url.split('#', 1)`: the text before the first `#` and the fragment after
it (CPython guards with `'#' in url`; splitting at the first occurrence
unconditionally yields the same pair, with an empty fragment when absent). -/
def splitFragment (u : PyStr) : PyStr × PyStr :=
  (u.takeWhile (· ≠ '#'), (u.dropWhile (· ≠ '#')).drop 1)

/-- `url.split('?', 1)`: the text before the first `?` and the query after
it, empty when absent. -/
def splitQuery (u : PyStr) : PyStr × PyStr :=
  (u.takeWhile (· ≠ '?'), (u.dropWhile (· ≠ '?')).drop 1)

/-- The schemes for which `urlparse` splits path parameters (CPython's
`uses_params` list). -/
def uses_params : List PyStr :=
  [[], pyStr "ftp", pyStr "hdl", pyStr "prospero", pyStr "http", pyStr "imap",
   pyStr "https", pyStr "shttp", pyStr "rtsp", pyStr "rtspu", pyStr "sip",
   pyStr "sips", pyStr "mms", pyStr "sftp", pyStr "tel"]

/-- Modelled from `_splitparams`: parameters start at the first `;` of the
last path segment (of the whole string when it has no `/`); none there means
no parameters. -/
def splitParams (p : PyStr) : PyStr × PyStr :=
  if '/' ∈ p then
    let seg := (p.reverse.takeWhile (· ≠ '/')).reverse
    if ';' ∈ seg then
      (p.take (p.length - seg.length) ++ seg.takeWhile (· ≠ ';'),
       (seg.dropWhile (· ≠ ';')).drop 1)
    else (p, [])
  else if ';' ∈ p then (p.takeWhile (· ≠ ';'), (p.dropWhile (· ≠ ';')).drop 1)
  else (p, [])

/-- Modelled from CPython's `urllib.parse.urlparse` (`urlsplit` plus the
parameter split): remove tab/CR/LF, split off the scheme, the `//`-delimited
netloc, the fragment, the query, and — for schemes in `uses_params` with a
`;` in the remaining path — the path parameters.  Not modelled, because both
raise `ValueError` and no bucket endpoint has such a host: the IPv6
bracketed-host validation and the non-ASCII-netloc normalization check; the
model is exact for netlocs free of brackets and non-ASCII characters. -/
def pyUrlparse (u0 : PyStr) : UrlParseResult :=
  let u := u0.filter (fun c => !urlUnsafeChar c)
  let s1 := splitScheme u
  let s2 := splitNetloc s1.2
  let s3 := splitFragment s2.2
  let s4 := splitQuery s3.1
  if s1.1 ∈ uses_params ∧ ';' ∈ s4.1 then
    ⟨s1.1, s2.1, (splitParams s4.1).1, (splitParams s4.1).2, s4.2, s3.2⟩
  else ⟨s1.1, s2.1, s4.1, [], s4.2, s3.2⟩

/-- Modelled from `urllib.parse.urlunsplit`: `//` plus netloc (the path
gaining a leading `/` if it lacks one) when a netloc is present or the path
already starts with `//`, then `scheme:`, `?query`, `#fragment`, each only
when non-empty. -/
def pyUrlunsplit (scheme netloc url query fragment : PyStr) : PyStr :=
  let u1 :=
    if netloc ≠ [] ∨ url.take 2 = pyStr "//" then
      pyStr "//" ++ netloc ++
        (if url ≠ [] ∧ url.take 1 ≠ pyStr "/" then '/' :: url else url)
    else url
  let u2 := if scheme ≠ [] then scheme ++ ':' :: u1 else u1
  let u3 := if query ≠ [] then u2 ++ '?' :: query else u2
  if fragment ≠ [] then u3 ++ '#' :: fragment else u3

/-- Modelled from `urllib.parse.urlunparse`: re-attach the path parameters
with `;`, then unsplit. -/
def pyUrlunparse (p : UrlParseResult) : PyStr :=
  pyUrlunsplit p.scheme p.netloc
    (if p.params ≠ [] then p.path ++ ';' :: p.params else p.path) p.query p.fragment

/-- Python's `x or default` on an optional string: `None` and `""` are falsy,
so both fall back to the default. -/
def pyOr (x : Option PyStr) (dflt : PyStr) : PyStr :=
  match x with
  | none => dflt
  | some s => if s.isEmpty then dflt else s

/-- The signer's per-instance state.  The field `canonical_uri_pfx` models the
code's `canonical_uri_prefix` attribute (renamed here only for lexical
reasons). -/
structure FastS3UrlSigner where
  canonical_uri_pfx : PyStr
  endpoint_url : PyStr
  bucket_host : PyStr
  region : PyStr
  credentials : Credentials

/-- `FastS3UrlSigner.__init__(bucket_endpoint_url=..., credentials=...,
aws_region=...)`: parse the endpoint URL once, strip trailing slashes from the
path for the canonical URI prefix, rebuild the endpoint with the path reset to
`/` and trailing slashes stripped, keep the netloc as the bucket host, and
default the region with `aws_region or "us-east-1"`. -/
def FastS3UrlSigner.init (bucket_endpoint_url : PyStr) (credentials : Credentials)
    (aws_region : Option PyStr) : FastS3UrlSigner :=
  let p := pyUrlparse bucket_endpoint_url
  { canonical_uri_pfx := rstripChar '/' p.path
    endpoint_url := rstripChar '/' (pyUrlunparse { p with path := pyStr "/" })
    bucket_host := p.netloc
    region := pyOr aws_region (pyStr "us-east-1")
    credentials := credentials }

/-! ## Batch URL generation (`generate_presigned_get_object_urls`)

The method reads the wall clock once (`datetime.now(tz=utc)`) and formats it
twice: `datestamp` (`YYYYMMDD`) and `amz_date` (`YYYYMMDDTHHMMSSZ`).  No claim
concerns calendar formatting, so the embedding takes the two formatted
timestamps as the function's time input; the method body is otherwise a pure
function of the signer state, the key list, `expires_in` and these two
strings.  The call-invariant values the code hoists out of its per-key loop
(signing key, query-string template, credential scope) are named definitions
here; each per-key definition recomputes them, with equal value. -/

/-- The credential scope built at line 165 of `s3_signer.py`. -/
def credentialScope (s : FastS3UrlSigner) (datestamp : PyStr) : PyStr :=
  datestamp ++ pyStr "/" ++ s.region ++ pyStr "/s3/aws4_request"

/-- The unsorted query-string template parts (lines 171-182): the five fixed
parameters, plus the security token, appended only for token-bearing
credentials. -/
def templateParts (s : FastS3UrlSigner) (expires_in : Int)
    (datestamp amz_date : PyStr) : List PyStr :=
  [pyStr "X-Amz-Algorithm=AWS4-HMAC-SHA256",
   pyStr "X-Amz-Credential=" ++
     pyQuote (Credentials.access_key s.credentials ++ pyStr "/" ++
       credentialScope s datestamp) ['~'],
   pyStr "X-Amz-Date=" ++ amz_date,
   pyStr "X-Amz-Expires=" ++ intToStr expires_in,
   pyStr "X-Amz-SignedHeaders=host"] ++
  (match s.credentials with
   | .plain _ _ => []
   | .withToken _ _ tok => [pyStr "X-Amz-Security-Token=" ++ pyQuote tok ['~']])

/-- The code's `canonical_querystring_template` (lines 184-187): the parts
sorted as full strings, joined with `&`. -/
def canonicalQuerystringTemplate (s : FastS3UrlSigner) (expires_in : Int)
    (datestamp amz_date : PyStr) : PyStr :=
  List.intercalate (pyStr "&") (pySorted (templateParts s expires_in datestamp amz_date))

/-- The single canonical header line (line 160). -/
def canonicalHeaders (s : FastS3UrlSigner) : PyStr :=
  pyStr "host:" ++ s.bucket_host ++ pyStr "\n"

/-- The per-key key encoding (line 196): `quote(object_key, safe="/~")`. -/
def encodedKey (object_key : PyStr) : PyStr := pyQuote object_key ['/', '~']

/-- The per-key canonical URI (line 198). -/
def canonicalUri (s : FastS3UrlSigner) (object_key : PyStr) : PyStr :=
  s.canonical_uri_pfx ++ pyStr "/" ++ encodedKey object_key

/-- The per-key canonical request (lines 200-209): six lines joined by
newlines. -/
def canonicalRequest (s : FastS3UrlSigner) (expires_in : Int)
    (datestamp amz_date object_key : PyStr) : PyStr :=
  List.intercalate (pyStr "\n")
    [pyStr "GET",
     canonicalUri s object_key,
     canonicalQuerystringTemplate s expires_in datestamp amz_date,
     canonicalHeaders s,
     pyStr "host",
     pyStr "UNSIGNED-PAYLOAD"]

/-- The per-key string to sign (lines 211-218): four lines joined by
newlines. -/
def stringToSign (s : FastS3UrlSigner) (expires_in : Int)
    (datestamp amz_date object_key : PyStr) : PyStr :=
  List.intercalate (pyStr "\n")
    [pyStr "AWS4-HMAC-SHA256",
     amz_date,
     credentialScope s datestamp,
     toHex (sha256 (utf8 (canonicalRequest s expires_in datestamp amz_date object_key)))]

/-- The per-key signature (line 220): hex HMAC of the string to sign under the
derived signing key (computed once per call at lines 156-158). -/
def signatureOf (s : FastS3UrlSigner) (expires_in : Int)
    (datestamp amz_date object_key : PyStr) : PyStr :=
  hmac_hex
    (derive_signing_key (utf8 (Credentials.secret_key s.credentials))
      datestamp s.region (pyStr "s3"))
    (utf8 (stringToSign s expires_in datestamp amz_date object_key))

/-- The per-key final URL (lines 222-228). -/
def signedUrlOf (s : FastS3UrlSigner) (expires_in : Int)
    (datestamp amz_date object_key : PyStr) : PyStr :=
  s.endpoint_url ++ canonicalUri s object_key ++ pyStr "?" ++
    canonicalQuerystringTemplate s expires_in datestamp amz_date ++
    pyStr "&X-Amz-Signature=" ++ signatureOf s expires_in datestamp amz_date object_key

/-- Python's falsiness test `not k` on a key that may be `None`: true for
`None` and for the empty string. -/
def isFalsyKey : Option PyStr → Bool
  | none => true
  | some s => s.isEmpty

/-- The message of the `ValueError` raised at line 149 (the string
`All 'object_keys' must be non-empty strings.`, its quotes built from code
point 39). -/
def valueErrorMsg : PyStr :=
  pyStr "All " ++ Char.ofNat 39 :: pyStr "object_keys" ++ Char.ofNat 39 ::
    pyStr " must be non-empty strings."

/-- `generate_presigned_get_object_urls(object_keys, expires_in=...)`
(lines 132-230).  A key may be `None` (the type says `List[str]`, but nothing
stops a `None` at runtime and the validation tests pass one), so keys arrive
as `Option PyStr`.  Raising `ValueError` is the `Except.error` branch. -/
def generate_presigned_get_object_urls (s : FastS3UrlSigner)
    (object_keys : List (Option PyStr)) (expires_in : Int)
    (datestamp amz_date : PyStr) : Except PyStr (List PyStr) :=
  if object_keys.isEmpty then .ok []
  else if object_keys.any isFalsyKey then .error valueErrorMsg
  else .ok (object_keys.map (fun k =>
    signedUrlOf s expires_in datestamp amz_date (k.getD [])))

/-- The call with `expires_in` left to its declared default of `3600`. -/
def generate_presigned_get_object_urls_default (s : FastS3UrlSigner)
    (object_keys : List (Option PyStr)) (datestamp amz_date : PyStr) :
    Except PyStr (List PyStr) :=
  generate_presigned_get_object_urls s object_keys 3600 datestamp amz_date

/-- A concrete signer over a path-style endpoint with plain credentials (the
configuration of `src/test/unit/test_validation.py`). -/
def sampleSigner : FastS3UrlSigner :=
  FastS3UrlSigner.init (pyStr "http://localhost:9000/my-bucket/")
    (Credentials.plain (pyStr "minioadmin") (pyStr "minioadmin")) none

/-- A concrete signer over a virtual-hosted endpoint with token-bearing
credentials. -/
def sampleSignerTok : FastS3UrlSigner :=
  FastS3UrlSigner.init (pyStr "https://my-bucket.s3.amazonaws.com/")
    (Credentials.withToken (pyStr "AKIDEXAMPLE") (pyStr "wJalrXUtnFEMI")
      (pyStr "tok/en+x~y"))
    (some (pyStr "eu-west-1"))

/-! ## Helper lemmas -/

/-- A SHA-256 digest is 32 bytes. -/
theorem sha256_length (msg : List Nat) : (sha256 msg).length = 32 := by
  simp [sha256, sha256StateBytes, wordBytes]

/-- An HMAC-SHA256 digest is 32 bytes. -/
theorem hmacSha256_length (key msg : List Nat) : (hmacSha256 key msg).length = 32 :=
  sha256_length _

/-- The derived signing key is 32 bytes. -/
theorem derive_signing_key_length (key : List Nat) (datestamp region service : PyStr) :
    (derive_signing_key key datestamp region service).length = 32 :=
  hmacSha256_length _ _

/-- On a non-empty list of valid (non-empty, non-null) keys, the batch call
succeeds and returns the per-key URL for each key, in order. -/
theorem gen_ok (s : FastS3UrlSigner) (keys : List PyStr) (e : Int) (d a : PyStr)
    (hne : keys ≠ []) (hval : [] ∉ keys) :
    generate_presigned_get_object_urls s (keys.map some) e d a =
      .ok (keys.map (signedUrlOf s e d a)) := by
  have h1 : (keys.map some).isEmpty = false := by
    cases keys with
    | nil => exact absurd rfl hne
    | cons x xs => rfl
  have h2 : (keys.map some).any isFalsyKey = false := by
    rw [List.any_eq_false]
    intro o ho
    obtain ⟨k, hk, rfl⟩ := List.mem_map.mp ho
    simp only [isFalsyKey, List.isEmpty_iff]
    intro hkE
    exact hval (hkE ▸ hk)
  simp [generate_presigned_get_object_urls, h1, h2, List.map_map, Function.comp]

/-- Two appends with distinct characters at a common in-bounds index differ. -/
theorem append_ne_of_index_ne (x y vx vy : PyStr) (i : Nat)
    (hx : i < x.length) (hy : i < y.length) (hne : x[i]? ≠ y[i]?) :
    x ++ vx ≠ y ++ vy := by
  intro h
  apply hne
  calc x[i]? = (x ++ vx)[i]? := (List.getElem?_append_left hx).symm
    _ = (y ++ vy)[i]? := by rw [h]
    _ = y[i]? := List.getElem?_append_left hy

/-- The head surviving a `dropWhile` fails the predicate. -/
theorem head?_dropWhile_false (p : Char → Bool) (l : List Char) (x : Char)
    (hx : (l.dropWhile p).head? = some x) : p x = false := by
  induction l with
  | nil => simp at hx
  | cons y ys ih =>
    rw [List.dropWhile_cons] at hx
    by_cases hy : p y = true
    · rw [if_pos hy] at hx
      exact ih hx
    · rw [if_neg hy] at hx
      simp only [List.head?_cons, Option.some.injEq] at hx
      subst hx
      simpa using hy

/-- Stripping a trailing character: the stripped string plus some run of the
character reassembles the original, and the stripped string does not end in
the character. -/
theorem rstripChar_spec (c : Char) (s : PyStr) :
    ∃ m, rstripChar c s ++ List.replicate m c = s ∧
      (rstripChar c s).getLast? ≠ some c := by
  refine ⟨(s.reverse.takeWhile (· == c)).length, ?_, ?_⟩
  · have hrep : (s.reverse.takeWhile (· == c)).reverse =
        List.replicate (s.reverse.takeWhile (· == c)).length c := by
      have hall : s.reverse.takeWhile (· == c) =
          List.replicate (s.reverse.takeWhile (· == c)).length c := by
        apply List.eq_replicate_of_mem
        intro b hb
        have hbc := List.mem_takeWhile_imp hb
        simpa using hbc
      rw [hall, List.reverse_replicate, List.length_replicate]
    calc rstripChar c s ++ List.replicate (s.reverse.takeWhile (· == c)).length c
        = (s.reverse.dropWhile (· == c)).reverse ++
            (s.reverse.takeWhile (· == c)).reverse := by rw [rstripChar, hrep]
      _ = (s.reverse.takeWhile (· == c) ++ s.reverse.dropWhile (· == c)).reverse := by
            rw [List.reverse_append]
      _ = s.reverse.reverse := by rw [List.takeWhile_append_dropWhile]
      _ = s := s.reverse_reverse
  · rw [rstripChar, List.getLast?_reverse]
    intro hc
    have hf := head?_dropWhile_false (· == c) s.reverse c hc
    simp at hf

/-! ## The claims -/

/-- C6: `generate_presigned_get_object_urls` is order- and length-preserving:
for every list of valid keys it returns exactly one URL per input key, the
i-th URL built from the i-th key, and for the empty input list it returns the
empty list without error. -/
theorem C6_order_and_length_preserving (s : FastS3UrlSigner) (keys : List PyStr)
    (e : Int) (d a : PyStr) (hne : keys ≠ []) (hval : [] ∉ keys) :
    generate_presigned_get_object_urls s [] e d a = .ok [] ∧
    ∃ us, generate_presigned_get_object_urls s (keys.map some) e d a = .ok us ∧
      us.length = keys.length ∧
      ∀ i (hi : i < keys.length), us[i]? = some (signedUrlOf s e d a keys[i]) := by
  refine ⟨rfl, keys.map (signedUrlOf s e d a), gen_ok s keys e d a hne hval, by simp, ?_⟩
  intro i hi
  rw [List.getElem?_map, List.getElem?_eq_getElem hi]
  rfl

/-- Witness for C6 at a concrete signer and the key list `["cat.jpg"]`. -/
theorem C6_order_and_length_preserving_witness :
    generate_presigned_get_object_urls sampleSigner [] 300
        (pyStr "20261012") (pyStr "20261012T101500Z") = .ok [] ∧
    ∃ us, generate_presigned_get_object_urls sampleSigner
        ([pyStr "cat.jpg"].map some) 300 (pyStr "20261012") (pyStr "20261012T101500Z") =
        .ok us ∧
      us.length = [pyStr "cat.jpg"].length ∧
      ∀ i (hi : i < [pyStr "cat.jpg"].length),
        us[i]? = some (signedUrlOf sampleSigner 300
          (pyStr "20261012") (pyStr "20261012T101500Z") ([pyStr "cat.jpg"][i])) :=
  C6_order_and_length_preserving sampleSigner [pyStr "cat.jpg"] 300
    (pyStr "20261012") (pyStr "20261012T101500Z") (by decide) (by decide)

/-- C7: for every non-empty input list containing an empty or missing (null)
entry, the batch call fails with the `ValueError` (the spec's
`InvalidArgument`) and produces no output.  The error is the same for every
signer, timestamp and expiry, i.e. it depends on no signing material: the
embedding returns it before any cryptographic value enters the result, and as
a pure function it leaves the signer state unchanged by construction. -/
theorem C7_invalid_argument (s : FastS3UrlSigner) (object_keys : List (Option PyStr))
    (e : Int) (d a : PyStr) (hne : object_keys ≠ [])
    (hbad : ∃ k ∈ object_keys, isFalsyKey k = true) :
    generate_presigned_get_object_urls s object_keys e d a = .error valueErrorMsg := by
  have h1 : object_keys.isEmpty = false := by
    cases object_keys with
    | nil => exact absurd rfl hne
    | cons x xs => rfl
  have h2 : object_keys.any isFalsyKey = true := List.any_eq_true.mpr hbad
  simp [generate_presigned_get_object_urls, h1, h2]

/-- Witness for C7: a null entry beside a valid key. -/
theorem C7_invalid_argument_witness :
    generate_presigned_get_object_urls sampleSigner [some (pyStr "cat.jpg"), none] 300
        (pyStr "20261012") (pyStr "20261012T101500Z") = .error valueErrorMsg :=
  C7_invalid_argument sampleSigner [some (pyStr "cat.jpg"), none] 300
    (pyStr "20261012") (pyStr "20261012T101500Z") (by decide) (by decide)

/-- C1: for every key in a batch call, the signature appended to that key's
URL is the lowercase-hex HMAC-SHA256 of that key's string-to-sign, keyed by
the 32-byte signing key obtained by the four chained HMAC-SHA256 steps —
`"AWS4" ++ secret_key` over `datestamp`, the output over `region`, then over
`"s3"`, then over `"aws4_request"`, every input as UTF-8 bytes. -/
theorem C1_signature_and_key_derivation (s : FastS3UrlSigner) (keys : List PyStr)
    (e : Int) (d a : PyStr) (i : Nat)
    (hne : keys ≠ []) (hval : [] ∉ keys) (hi : i < keys.length) :
    ∃ us, generate_presigned_get_object_urls s (keys.map some) e d a = .ok us ∧
      us[i]? = some
        (s.endpoint_url ++ canonicalUri s keys[i] ++ pyStr "?" ++
          canonicalQuerystringTemplate s e d a ++ pyStr "&X-Amz-Signature=" ++
          toHex (hmacSha256
            (derive_signing_key (utf8 (Credentials.secret_key s.credentials))
              d s.region (pyStr "s3"))
            (utf8 (stringToSign s e d a keys[i])))) ∧
      derive_signing_key (utf8 (Credentials.secret_key s.credentials))
          d s.region (pyStr "s3") =
        hmacSha256
          (hmacSha256
            (hmacSha256
              (hmacSha256 (utf8 (pyStr "AWS4") ++ utf8 (Credentials.secret_key s.credentials))
                (utf8 d))
              (utf8 s.region))
            (utf8 (pyStr "s3")))
          (utf8 (pyStr "aws4_request")) ∧
      (derive_signing_key (utf8 (Credentials.secret_key s.credentials))
          d s.region (pyStr "s3")).length = 32 := by
  refine ⟨keys.map (signedUrlOf s e d a), gen_ok s keys e d a hne hval, ?_, rfl,
    derive_signing_key_length _ _ _ _⟩
  rw [List.getElem?_map, List.getElem?_eq_getElem hi]
  rfl

/-- Witness for C1 at a concrete signer, key list `["cat.jpg"]` and index 0. -/
theorem C1_signature_and_key_derivation_witness :
    ∃ us, generate_presigned_get_object_urls sampleSigner
        ([pyStr "cat.jpg"].map some) 300 (pyStr "20261012") (pyStr "20261012T101500Z") =
        .ok us ∧
      us[0]? = some
        (sampleSigner.endpoint_url ++ canonicalUri sampleSigner (pyStr "cat.jpg") ++
          pyStr "?" ++
          canonicalQuerystringTemplate sampleSigner 300
            (pyStr "20261012") (pyStr "20261012T101500Z") ++
          pyStr "&X-Amz-Signature=" ++
          toHex (hmacSha256
            (derive_signing_key (utf8 (Credentials.secret_key sampleSigner.credentials))
              (pyStr "20261012") sampleSigner.region (pyStr "s3"))
            (utf8 (stringToSign sampleSigner 300
              (pyStr "20261012") (pyStr "20261012T101500Z") (pyStr "cat.jpg"))))) ∧
      derive_signing_key (utf8 (Credentials.secret_key sampleSigner.credentials))
          (pyStr "20261012") sampleSigner.region (pyStr "s3") =
        hmacSha256
          (hmacSha256
            (hmacSha256
              (hmacSha256
                (utf8 (pyStr "AWS4") ++ utf8 (Credentials.secret_key sampleSigner.credentials))
                (utf8 (pyStr "20261012")))
              (utf8 sampleSigner.region))
            (utf8 (pyStr "s3")))
          (utf8 (pyStr "aws4_request")) ∧
      (derive_signing_key (utf8 (Credentials.secret_key sampleSigner.credentials))
          (pyStr "20261012") sampleSigner.region (pyStr "s3")).length = 32 :=
  C1_signature_and_key_derivation sampleSigner [pyStr "cat.jpg"] 300
    (pyStr "20261012") (pyStr "20261012T101500Z") 0 (by decide) (by decide) (by decide)

/-- C2: for every key in a batch call, the canonical request hashed for that
key is exactly the six newline-joined lines `GET`, the canonical URI, the
call-shared query-string template, `host:{bucket_host}\n`, `host`,
`UNSIGNED-PAYLOAD`; and its string-to-sign is exactly the four newline-joined
lines `AWS4-HMAC-SHA256`, `amz_date`, the credential scope
`{datestamp}/{region}/s3/aws4_request`, and the lowercase-hex SHA-256 digest
of the UTF-8-encoded canonical request. -/
theorem C2_canonical_request_and_string_to_sign (s : FastS3UrlSigner)
    (keys : List PyStr) (e : Int) (d a : PyStr) (i : Nat)
    (hne : keys ≠ []) (hval : [] ∉ keys) (hi : i < keys.length) :
    ∃ us, generate_presigned_get_object_urls s (keys.map some) e d a = .ok us ∧
      us[i]? = some (signedUrlOf s e d a keys[i]) ∧
      canonicalRequest s e d a keys[i] =
        pyStr "GET" ++ pyStr "\n" ++
        canonicalUri s keys[i] ++ pyStr "\n" ++
        canonicalQuerystringTemplate s e d a ++ pyStr "\n" ++
        (pyStr "host:" ++ s.bucket_host ++ pyStr "\n") ++ pyStr "\n" ++
        pyStr "host" ++ pyStr "\n" ++
        pyStr "UNSIGNED-PAYLOAD" ∧
      stringToSign s e d a keys[i] =
        pyStr "AWS4-HMAC-SHA256" ++ pyStr "\n" ++
        a ++ pyStr "\n" ++
        (d ++ pyStr "/" ++ s.region ++ pyStr "/s3/aws4_request") ++ pyStr "\n" ++
        toHex (sha256 (utf8 (canonicalRequest s e d a keys[i]))) := by
  refine ⟨keys.map (signedUrlOf s e d a), gen_ok s keys e d a hne hval, ?_, ?_, ?_⟩
  · rw [List.getElem?_map, List.getElem?_eq_getElem hi]
    rfl
  · simp [canonicalRequest, canonicalHeaders, List.intercalate, List.intersperse,
      List.append_assoc]
  · simp [stringToSign, credentialScope, List.intercalate, List.intersperse,
      List.append_assoc]

/-- Witness for C2 at a concrete signer, key list `["cat.jpg"]` and index 0. -/
theorem C2_canonical_request_and_string_to_sign_witness :
    ∃ us, generate_presigned_get_object_urls sampleSigner
        ([pyStr "cat.jpg"].map some) 300 (pyStr "20261012") (pyStr "20261012T101500Z") =
        .ok us ∧
      us[0]? = some (signedUrlOf sampleSigner 300
        (pyStr "20261012") (pyStr "20261012T101500Z") (pyStr "cat.jpg")) ∧
      canonicalRequest sampleSigner 300
          (pyStr "20261012") (pyStr "20261012T101500Z") (pyStr "cat.jpg") =
        pyStr "GET" ++ pyStr "\n" ++
        canonicalUri sampleSigner (pyStr "cat.jpg") ++ pyStr "\n" ++
        canonicalQuerystringTemplate sampleSigner 300
          (pyStr "20261012") (pyStr "20261012T101500Z") ++ pyStr "\n" ++
        (pyStr "host:" ++ sampleSigner.bucket_host ++ pyStr "\n") ++ pyStr "\n" ++
        pyStr "host" ++ pyStr "\n" ++
        pyStr "UNSIGNED-PAYLOAD" ∧
      stringToSign sampleSigner 300
          (pyStr "20261012") (pyStr "20261012T101500Z") (pyStr "cat.jpg") =
        pyStr "AWS4-HMAC-SHA256" ++ pyStr "\n" ++
        pyStr "20261012T101500Z" ++ pyStr "\n" ++
        (pyStr "20261012" ++ pyStr "/" ++ sampleSigner.region ++
          pyStr "/s3/aws4_request") ++ pyStr "\n" ++
        toHex (sha256 (utf8 (canonicalRequest sampleSigner 300
          (pyStr "20261012") (pyStr "20261012T101500Z") (pyStr "cat.jpg")))) :=
  C2_canonical_request_and_string_to_sign sampleSigner [pyStr "cat.jpg"] 300
    (pyStr "20261012") (pyStr "20261012T101500Z") 0 (by decide) (by decide) (by decide)

/-- C4: for every key, the canonical URI used in the canonical request and in
the final URL is `canonical_uri_prefix ++ "/" ++` the percent-encoding of the
key with `/` and `~` safe (left literal); `"my/image.png"` keeps its slash,
a space encodes as `%20`, and `~` is never escaped (its character encoding is
itself, and the encoding acts character by character). -/
theorem C4_canonical_uri_key_encoding (s : FastS3UrlSigner) (keys : List PyStr)
    (e : Int) (d a : PyStr) (i : Nat)
    (hne : keys ≠ []) (hval : [] ∉ keys) (hi : i < keys.length) :
    ∃ us, generate_presigned_get_object_urls s (keys.map some) e d a = .ok us ∧
      (∃ rest, us[i]? = some (s.endpoint_url ++
        (s.canonical_uri_pfx ++ pyStr "/" ++ pyQuote keys[i] ['/', '~']) ++ rest)) ∧
      canonicalUri s keys[i] =
        s.canonical_uri_pfx ++ pyStr "/" ++ pyQuote keys[i] ['/', '~'] ∧
      (∃ rest, canonicalRequest s e d a keys[i] =
        pyStr "GET" ++ pyStr "\n" ++ canonicalUri s keys[i] ++ rest) ∧
      quoteChar ['/', '~'] '/' = ['/'] ∧
      quoteChar ['/', '~'] '~' = ['~'] ∧
      (∀ k : PyStr, pyQuote k ['/', '~'] = (k.map (quoteChar ['/', '~'])).flatten) ∧
      pyQuote (pyStr "my/image.png") ['/', '~'] = pyStr "my/image.png" ∧
      pyQuote (pyStr "hello world.txt") ['/', '~'] = pyStr "hello%20world.txt" ∧
      pyQuote (pyStr "hello~world.txt") ['/', '~'] = pyStr "hello~world.txt" := by
  refine ⟨keys.map (signedUrlOf s e d a), gen_ok s keys e d a hne hval,
    ⟨pyStr "?" ++ canonicalQuerystringTemplate s e d a ++ pyStr "&X-Amz-Signature=" ++
      signatureOf s e d a keys[i], ?_⟩, rfl,
    ⟨pyStr "\n" ++ canonicalQuerystringTemplate s e d a ++ pyStr "\n" ++
      canonicalHeaders s ++ pyStr "\n" ++ pyStr "host" ++ pyStr "\n" ++
      pyStr "UNSIGNED-PAYLOAD", ?_⟩,
    by decide, by decide, fun k => rfl, by decide, by decide, by decide⟩
  · rw [List.getElem?_map, List.getElem?_eq_getElem hi]
    simp [signedUrlOf, canonicalUri, encodedKey, List.append_assoc]
  · simp [canonicalRequest, List.intercalate, List.intersperse, List.append_assoc]

/-- Witness for C4 at a concrete signer, key list `["my/image.png"]`, index 0. -/
theorem C4_canonical_uri_key_encoding_witness :
    ∃ us, generate_presigned_get_object_urls sampleSigner
        ([pyStr "my/image.png"].map some) 300
        (pyStr "20261012") (pyStr "20261012T101500Z") = .ok us ∧
      (∃ rest, us[0]? = some (sampleSigner.endpoint_url ++
        (sampleSigner.canonical_uri_pfx ++ pyStr "/" ++
          pyQuote (pyStr "my/image.png") ['/', '~']) ++ rest)) ∧
      canonicalUri sampleSigner (pyStr "my/image.png") =
        sampleSigner.canonical_uri_pfx ++ pyStr "/" ++
          pyQuote (pyStr "my/image.png") ['/', '~'] ∧
      (∃ rest, canonicalRequest sampleSigner 300
          (pyStr "20261012") (pyStr "20261012T101500Z") (pyStr "my/image.png") =
        pyStr "GET" ++ pyStr "\n" ++
          canonicalUri sampleSigner (pyStr "my/image.png") ++ rest) ∧
      quoteChar ['/', '~'] '/' = ['/'] ∧
      quoteChar ['/', '~'] '~' = ['~'] ∧
      (∀ k : PyStr, pyQuote k ['/', '~'] = (k.map (quoteChar ['/', '~'])).flatten) ∧
      pyQuote (pyStr "my/image.png") ['/', '~'] = pyStr "my/image.png" ∧
      pyQuote (pyStr "hello world.txt") ['/', '~'] = pyStr "hello%20world.txt" ∧
      pyQuote (pyStr "hello~world.txt") ['/', '~'] = pyStr "hello~world.txt" :=
  C4_canonical_uri_key_encoding sampleSigner [pyStr "my/image.png"] 300
    (pyStr "20261012") (pyStr "20261012T101500Z") 0 (by decide) (by decide) (by decide)

/-- C9: `expires_in` is never validated: for every integer `expires_in`
(including 0 and negative values) the batch call on valid keys succeeds, the
value is embedded verbatim in decimal as the `X-Amz-Expires` parameter of
every produced URL, and omitting the argument means `3600`. -/
theorem C9_expires_in_passthrough (s : FastS3UrlSigner) (keys : List PyStr)
    (e : Int) (d a : PyStr) (hne : keys ≠ []) (hval : [] ∉ keys) :
    generate_presigned_get_object_urls_default s (keys.map some) d a =
      generate_presigned_get_object_urls s (keys.map some) 3600 d a ∧
    (pyStr "X-Amz-Expires=" ++ intToStr e) ∈ templateParts s e d a ∧
    ∃ us, generate_presigned_get_object_urls s (keys.map some) e d a = .ok us ∧
      us.length = keys.length ∧
      ∀ i (hi : i < keys.length), ∃ l : List PyStr,
        (pyStr "X-Amz-Expires=" ++ intToStr e) ∈ l ∧
        us[i]? = some (s.endpoint_url ++ canonicalUri s keys[i] ++ pyStr "?" ++
          List.intercalate (pyStr "&") l ++ pyStr "&X-Amz-Signature=" ++
          signatureOf s e d a keys[i]) := by
  refine ⟨rfl, by simp [templateParts],
    keys.map (signedUrlOf s e d a), gen_ok s keys e d a hne hval, by simp, ?_⟩
  intro i hi
  refine ⟨pySorted (templateParts s e d a), ?_, ?_⟩
  · have hperm := List.perm_insertionSort (α := PyStr) (· ≤ ·) (templateParts s e d a)
    unfold pySorted
    rw [hperm.mem_iff]
    simp [templateParts]
  · rw [List.getElem?_map, List.getElem?_eq_getElem hi]
    rfl

/-- Witness for C9 at a concrete signer, a negative expiry and one key. -/
theorem C9_expires_in_passthrough_witness :
    generate_presigned_get_object_urls_default sampleSigner
        ([pyStr "cat.jpg"].map some) (pyStr "20261012") (pyStr "20261012T101500Z") =
      generate_presigned_get_object_urls sampleSigner
        ([pyStr "cat.jpg"].map some) 3600 (pyStr "20261012") (pyStr "20261012T101500Z") ∧
    (pyStr "X-Amz-Expires=" ++ intToStr (-7)) ∈
      templateParts sampleSigner (-7) (pyStr "20261012") (pyStr "20261012T101500Z") ∧
    ∃ us, generate_presigned_get_object_urls sampleSigner
        ([pyStr "cat.jpg"].map some) (-7) (pyStr "20261012") (pyStr "20261012T101500Z") =
        .ok us ∧
      us.length = [pyStr "cat.jpg"].length ∧
      ∀ i (hi : i < [pyStr "cat.jpg"].length), ∃ l : List PyStr,
        (pyStr "X-Amz-Expires=" ++ intToStr (-7)) ∈ l ∧
        us[i]? = some (sampleSigner.endpoint_url ++
          canonicalUri sampleSigner ([pyStr "cat.jpg"][i]) ++ pyStr "?" ++
          List.intercalate (pyStr "&") l ++ pyStr "&X-Amz-Signature=" ++
          signatureOf sampleSigner (-7) (pyStr "20261012") (pyStr "20261012T101500Z")
            ([pyStr "cat.jpg"][i])) :=
  C9_expires_in_passthrough sampleSigner [pyStr "cat.jpg"] (-7)
    (pyStr "20261012") (pyStr "20261012T101500Z") (by decide) (by decide)

/-- C10: constructing the signer with `aws_region` equal to the empty string
falls back to `us-east-1` exactly as an absent region does (Python's
falsy-`or`), and that region then reaches the credential scope, the
signing-key derivation and the `X-Amz-Credential` parameter of every URL the
signer produces. -/
theorem C10_empty_region_fallback (u : PyStr) (cr : Credentials) (e : Int)
    (d a k : PyStr) :
    (FastS3UrlSigner.init u cr (some [])).region = pyStr "us-east-1" ∧
    FastS3UrlSigner.init u cr (some []) = FastS3UrlSigner.init u cr none ∧
    credentialScope (FastS3UrlSigner.init u cr (some [])) d =
      d ++ pyStr "/" ++ pyStr "us-east-1" ++ pyStr "/s3/aws4_request" ∧
    signatureOf (FastS3UrlSigner.init u cr (some [])) e d a k =
      hmac_hex
        (derive_signing_key (utf8 (Credentials.secret_key cr)) d
          (pyStr "us-east-1") (pyStr "s3"))
        (utf8 (stringToSign (FastS3UrlSigner.init u cr (some [])) e d a k)) ∧
    (pyStr "X-Amz-Credential=" ++
        pyQuote (Credentials.access_key cr ++ pyStr "/" ++
          (d ++ pyStr "/" ++ pyStr "us-east-1" ++ pyStr "/s3/aws4_request")) ['~']) ∈
      templateParts (FastS3UrlSigner.init u cr (some [])) e d a := by
  refine ⟨rfl, rfl, rfl, rfl, ?_⟩
  simp [templateParts, FastS3UrlSigner.init, credentialScope, pyOr, List.append_assoc]

/-- `takeWhile` over an append stops exactly at the first failing element. -/
theorem takeWhile_append_stop (p : Char → Bool) (xs rest : List Char) (y : Char)
    (hxs : ∀ x ∈ xs, p x = true) (hy : p y = false) :
    (xs ++ y :: rest).takeWhile p = xs := by
  induction xs with
  | nil => simp [List.takeWhile_cons, hy]
  | cons x xs ih =>
    have hx := hxs x (by simp)
    simp only [List.cons_append, List.takeWhile_cons, hx, if_true]
    rw [ih (fun z hz => hxs z (by simp [hz]))]

/-- `dropWhile` over an append resumes exactly at the first failing element. -/
theorem dropWhile_append_stop (p : Char → Bool) (xs rest : List Char) (y : Char)
    (hxs : ∀ x ∈ xs, p x = true) (hy : p y = false) :
    (xs ++ y :: rest).dropWhile p = y :: rest := by
  induction xs with
  | nil => simp [List.dropWhile_cons, hy]
  | cons x xs ih =>
    have hx := hxs x (by simp)
    simp only [List.cons_append, List.dropWhile_cons, hx, if_true]
    exact ih (fun z hz => hxs z (by simp [hz]))

/-- `takeWhile` keeps a list all of whose elements pass. -/
theorem takeWhile_all (p : Char → Bool) (xs : List Char)
    (hxs : ∀ x ∈ xs, p x = true) : xs.takeWhile p = xs := by
  induction xs with
  | nil => rfl
  | cons x xs ih =>
    have hx := hxs x (by simp)
    simp only [List.takeWhile_cons, hx, if_true]
    rw [ih (fun z hz => hxs z (by simp [hz]))]

/-- `dropWhile` empties a list all of whose elements pass. -/
theorem dropWhile_all (p : Char → Bool) (xs : List Char)
    (hxs : ∀ x ∈ xs, p x = true) : xs.dropWhile p = [] := by
  induction xs with
  | nil => rfl
  | cons x xs ih =>
    have hx := hxs x (by simp)
    simp only [List.dropWhile_cons, hx, if_true]
    exact ih (fun z hz => hxs z (by simp [hz]))

/-- Stripping after appending one more of the character strips it too. -/
theorem rstripChar_append_last (c : Char) (xs : PyStr) :
    rstripChar c (xs ++ [c]) = rstripChar c xs := by
  simp [rstripChar, List.reverse_append, List.dropWhile_cons]

/-- A string not ending in the character is unchanged by the strip. -/
theorem rstripChar_of_getLast_ne (c : Char) (xs : PyStr)
    (h : ∀ a, xs.getLast? = some a → a ≠ c) :
    rstripChar c xs = xs := by
  cases hx : xs.reverse with
  | nil =>
    have : xs = [] := by simpa using congrArg List.reverse hx
    simp [this, rstripChar]
  | cons y t =>
    have hy : xs.getLast? = some y := by
      have := List.getLast?_reverse xs.reverse
      rw [List.reverse_reverse] at this
      rw [this, hx]
      rfl
    have hyc : (y == c) = false := by
      simpa using h y hy
    rw [rstripChar, hx, List.dropWhile_cons, hyc]
    simp only [Bool.false_eq_true, if_false]
    rw [← hx, List.reverse_reverse]

/-- A scheme character is not one of the stripped control characters. -/
theorem isSchemeChar_not_stripped (c : Char) (h : isSchemeChar c = true) :
    urlUnsafeChar c = false := by
  cases hb : urlUnsafeChar c with
  | false => rfl
  | true =>
    exfalso
    have hc : (c = '\t' ∨ c = '\r') ∨ c = '\n' := by
      simpa [urlUnsafeChar] using hb
    rcases hc with (rfl | rfl) | rfl <;> exact absurd h (by decide)

/-- A scheme character is not a colon. -/
theorem isSchemeChar_ne_colon (c : Char) (h : isSchemeChar c = true) : c ≠ ':' := by
  intro hc
  rw [hc] at h
  exact absurd h (by decide)

/-- Counterexample to C5 as stated over all parseable endpoint URLs:
`https://s3.amazonaws.com/my-bucket?x=1` parses with scheme `https` and host
`s3.amazonaws.com`, yet construction leaves the query inside `endpoint_url`
(`https://s3.amazonaws.com/?x=1`), which is not `scheme://host`. -/
theorem C5_endpoint_url_parsing_counterexample :
    (FastS3UrlSigner.init (pyStr "https://s3.amazonaws.com/my-bucket?x=1")
        (Credentials.plain (pyStr "AK") (pyStr "SK")) none).endpoint_url =
      pyStr "https://s3.amazonaws.com/?x=1" ∧
    (FastS3UrlSigner.init (pyStr "https://s3.amazonaws.com/my-bucket?x=1")
        (Credentials.plain (pyStr "AK") (pyStr "SK")) none).endpoint_url ≠
      pyStr "https" ++ pyStr "://" ++ pyStr "s3.amazonaws.com" ∧
    (pyUrlparse (pyStr "https://s3.amazonaws.com/my-bucket?x=1")).scheme =
      pyStr "https" ∧
    (pyUrlparse (pyStr "https://s3.amazonaws.com/my-bucket?x=1")).netloc =
      pyStr "s3.amazonaws.com" := by
  refine ⟨rfl, by decide, rfl, rfl⟩

/-- C5 (amended): for absolute bucket endpoint URLs — a non-empty lowercase
scheme of scheme characters starting with an ASCII letter, `://`, a non-empty
bracket-free ASCII netloc free of `/`, `?`, `#` and control characters, and a
path that is empty or starts with `/` and contains no query, fragment,
parameter or control characters — construction sets `bucket_host` to the
netloc, the canonical URI prefix to the path with all trailing `/` removed,
and `endpoint_url` to `scheme://netloc` with the path discarded and no
trailing slash; in particular `https://s3.amazonaws.com/my-bucket/` yields
prefix `/my-bucket` and `https://my-bucket.s3.amazonaws.com/` yields the
empty prefix.  (Unamended, the claim fails on parseable URLs carrying a
query; see the counterexample.) -/
theorem C5_endpoint_url_parsing (scheme netloc path u : PyStr) (cr : Credentials)
    (reg : Option PyStr)
    (hu : u = scheme ++ pyStr "://" ++ netloc ++ path)
    (hs1 : scheme ≠ [])
    (hs2 : ∀ c ∈ scheme, isSchemeChar c = true ∧ asciiLower c = c)
    (hsa : ∃ c cs, scheme = c :: cs ∧ c.isAlpha = true)
    (hn1 : netloc ≠ [])
    (hn2 : ∀ c ∈ netloc, netlocEnd c = false ∧ c ≠ '[' ∧ c ≠ ']' ∧
      c.toNat < 128 ∧ urlUnsafeChar c = false)
    (hp1 : path = [] ∨ ∃ t, path = '/' :: t)
    (hp2 : ∀ c ∈ path, c ≠ '?' ∧ c ≠ '#' ∧ c ≠ ';' ∧ urlUnsafeChar c = false) :
    (FastS3UrlSigner.init u cr reg).bucket_host = netloc ∧
    (∃ m, (FastS3UrlSigner.init u cr reg).canonical_uri_pfx ++
        List.replicate m '/' = path ∧
      (FastS3UrlSigner.init u cr reg).canonical_uri_pfx.getLast? ≠ some '/') ∧
    (FastS3UrlSigner.init u cr reg).endpoint_url = scheme ++ pyStr "://" ++ netloc ∧
    (∀ c2 r2, (FastS3UrlSigner.init (pyStr "https://s3.amazonaws.com/my-bucket/")
        c2 r2).canonical_uri_pfx = pyStr "/my-bucket") ∧
    (∀ c2 r2, (FastS3UrlSigner.init (pyStr "https://my-bucket.s3.amazonaws.com/")
        c2 r2).canonical_uri_pfx = []) := by
  have hu' : u = scheme ++ ':' :: '/' :: '/' :: (netloc ++ path) := by
    rw [hu]
    have h3 : pyStr "://" = ':' :: '/' :: '/' :: [] := rfl
    rw [h3]
    simp [List.append_assoc]
  have hfilter : u.filter (fun c => !urlUnsafeChar c) = u := by
    rw [List.filter_eq_self]
    intro c hc
    rw [hu] at hc
    simp only [List.mem_append] at hc
    rcases hc with ((hc | hc) | hc) | hc
    · rw [isSchemeChar_not_stripped c (hs2 c hc).1]
      rfl
    · have hx : c ∈ ([':', '/', '/'] : List Char) := hc
      have : c = ':' ∨ c = '/' := by simpa using hx
      rcases this with h | h <;> (rw [h]; rfl)
    · rw [(hn2 c hc).2.2.2.2]
      rfl
    · rw [(hp2 c hc).2.2.2]
      rfl
  have hschr : ∀ x ∈ scheme, (fun c => decide (c ≠ ':')) x = true := by
    intro x hx
    simpa using isSchemeChar_ne_colon x (hs2 x hx).1
  have hcolon : (fun c => decide (c ≠ ':')) ':' = false := by simp
  have htake : u.takeWhile (fun c => decide (c ≠ ':')) = scheme := by
    rw [hu']
    exact takeWhile_append_stop _ scheme _ ':' hschr hcolon
  have hdrop : u.dropWhile (fun c => decide (c ≠ ':')) =
      ':' :: '/' :: '/' :: (netloc ++ path) := by
    rw [hu']
    exact dropWhile_append_stop _ scheme _ ':' hschr hcolon
  have hlower : scheme.map asciiLower = scheme := by
    conv_rhs => rw [← List.map_id scheme]
    exact List.map_congr_left (fun x hx => (hs2 x hx).2)
  obtain ⟨c0, cs0, hsc, hca⟩ := hsa
  have hhead : u.headD ' ' = c0 := by
    have : u = c0 :: (cs0 ++ ':' :: '/' :: '/' :: (netloc ++ path)) := by
      rw [hu', hsc]
      rfl
    rw [this]
    rfl
  have hcond : ((u.headD ' ').isAlpha &&
      ((u.takeWhile (fun c => decide (c ≠ ':'))).all isSchemeChar)) = true := by
    rw [hhead, hca, htake, Bool.true_and, List.all_eq_true]
    intro x hx
    exact (hs2 x hx).1
  have hsplitScheme : splitScheme u = (scheme, '/' :: '/' :: (netloc ++ path)) := by
    unfold splitScheme
    rw [hdrop]
    simp only []
    rw [if_pos hcond, htake, hlower]
  have hnetr : ∀ x ∈ netloc, (fun c => !netlocEnd c) x = true := by
    intro x hx
    simp [(hn2 x hx).1]
  have hsplitNetloc : splitNetloc ('/' :: '/' :: (netloc ++ path)) = (netloc, path) := by
    have hred : splitNetloc ('/' :: '/' :: (netloc ++ path)) =
        ((netloc ++ path).takeWhile (fun c => !netlocEnd c),
         (netloc ++ path).dropWhile (fun c => !netlocEnd c)) := rfl
    rw [hred]
    rcases hp1 with h | ⟨t, ht⟩
    · rw [h, List.append_nil, takeWhile_all _ netloc hnetr, dropWhile_all _ netloc hnetr]
    · rw [ht, takeWhile_append_stop _ netloc t '/' hnetr (by decide),
        dropWhile_append_stop _ netloc t '/' hnetr (by decide)]
  have hnohash : ∀ x ∈ path, (fun c => decide (c ≠ '#')) x = true := by
    intro x hx
    simpa using (hp2 x hx).2.1
  have hnoq : ∀ x ∈ path, (fun c => decide (c ≠ '?')) x = true := by
    intro x hx
    simpa using (hp2 x hx).1
  have hsplitFragment : splitFragment path = (path, []) := by
    unfold splitFragment
    rw [takeWhile_all _ path hnohash, dropWhile_all _ path hnohash]
    rfl
  have hsplitQuery : splitQuery path = (path, []) := by
    unfold splitQuery
    rw [takeWhile_all _ path hnoq, dropWhile_all _ path hnoq]
    rfl
  have hparse : pyUrlparse u = ⟨scheme, netloc, path, [], [], []⟩ := by
    simp only [pyUrlparse, hfilter, hsplitScheme, hsplitNetloc, hsplitFragment,
      hsplitQuery]
    rw [if_neg]
    rintro ⟨-, hsem⟩
    exact (hp2 ';' hsem).2.2.1 rfl
  have hlastne : ∀ a, (scheme ++ pyStr "://" ++ netloc).getLast? = some a →
      a ≠ '/' := by
    intro x hx
    rw [List.getLast?_append_of_ne_nil _ hn1] at hx
    intro hxs
    cases hnl : netloc with
    | nil => exact absurd hnl hn1
    | cons z zs =>
      rw [hnl, List.getLast?_eq_getLast _ (by simp)] at hx
      cases hx
      have hmem : (z :: zs).getLast (by simp) ∈ netloc := by
        rw [hnl]
        exact List.getLast_mem _
      have hend := (hn2 _ hmem).1
      rw [hxs] at hend
      exact absurd hend (by decide)
  have hunparse : pyUrlunparse ⟨scheme, netloc, pyStr "/", [], [], []⟩ =
      (scheme ++ pyStr "://" ++ netloc) ++ ['/'] := by
    have hA : ¬(([] : PyStr) ≠ []) := fun h => h rfl
    have hB : ¬(pyStr "/" ≠ [] ∧ (pyStr "/").take 1 ≠ pyStr "/") := fun h => h.2 rfl
    have hC : netloc ≠ [] ∨ (pyStr "/").take 2 = pyStr "//" := Or.inl hn1
    simp only [pyUrlunparse, pyUrlunsplit, if_neg hA, if_neg hB, if_pos hC,
      if_pos hs1]
    simp [pyStr, List.append_assoc]
  refine ⟨?_, ?_, ?_, fun c2 r2 => rfl, fun c2 r2 => rfl⟩
  · rw [FastS3UrlSigner.init, hparse]
  · rw [FastS3UrlSigner.init, hparse]
    exact rstripChar_spec '/' path
  · rw [FastS3UrlSigner.init, hparse]
    show rstripChar '/' (pyUrlunparse ⟨scheme, netloc, pyStr "/", [], [], []⟩) = _
    rw [hunparse, rstripChar_append_last, rstripChar_of_getLast_ne _ _ hlastne]

/-- Witness for the amended C5 at the endpoint
`https://s3.amazonaws.com/my-bucket/`. -/
theorem C5_endpoint_url_parsing_witness :
    (FastS3UrlSigner.init (pyStr "https://s3.amazonaws.com/my-bucket/")
        (Credentials.plain (pyStr "AK") (pyStr "SK")) none).bucket_host =
      pyStr "s3.amazonaws.com" ∧
    (∃ m, (FastS3UrlSigner.init (pyStr "https://s3.amazonaws.com/my-bucket/")
        (Credentials.plain (pyStr "AK") (pyStr "SK")) none).canonical_uri_pfx ++
        List.replicate m '/' = pyStr "/my-bucket/" ∧
      (FastS3UrlSigner.init (pyStr "https://s3.amazonaws.com/my-bucket/")
        (Credentials.plain (pyStr "AK") (pyStr "SK"))
          none).canonical_uri_pfx.getLast? ≠ some '/') ∧
    (FastS3UrlSigner.init (pyStr "https://s3.amazonaws.com/my-bucket/")
        (Credentials.plain (pyStr "AK") (pyStr "SK")) none).endpoint_url =
      pyStr "https" ++ pyStr "://" ++ pyStr "s3.amazonaws.com" ∧
    (∀ c2 r2, (FastS3UrlSigner.init (pyStr "https://s3.amazonaws.com/my-bucket/")
        c2 r2).canonical_uri_pfx = pyStr "/my-bucket") ∧
    (∀ c2 r2, (FastS3UrlSigner.init (pyStr "https://my-bucket.s3.amazonaws.com/")
        c2 r2).canonical_uri_pfx = []) :=
  C5_endpoint_url_parsing (pyStr "https") (pyStr "s3.amazonaws.com")
    (pyStr "/my-bucket/") (pyStr "https://s3.amazonaws.com/my-bucket/")
    (Credentials.plain (pyStr "AK") (pyStr "SK")) none
    (by decide) (by decide) (by decide)
    ⟨'h', pyStr "ttps", by decide, by decide⟩
    (by decide) (by decide)
    (Or.inr ⟨pyStr "my-bucket/", by decide⟩)
    (by decide)

/-- C3: every URL of a batch call is exactly
`endpoint_url ++ canonical_uri ++ "?" ++ template ++ "&X-Amz-Signature=" ++
signature`, where the template joins the parameters — `X-Amz-Algorithm`,
`X-Amz-Credential` (percent-encoded `access_key/credential_scope` with `~`
safe), `X-Amz-Date`, `X-Amz-Expires`, `X-Amz-SignedHeaders=host`, and, only
with a session token, `X-Amz-Security-Token` — with `&` in lexicographic
order of the full `key=value` strings, the signature appended last, outside
the sort. -/
theorem C3_url_form_and_query_ordering (s : FastS3UrlSigner) (keys : List PyStr)
    (e : Int) (d a : PyStr) (hne : keys ≠ []) (hval : [] ∉ keys) :
    templateParts s e d a =
      [pyStr "X-Amz-Algorithm=AWS4-HMAC-SHA256",
       pyStr "X-Amz-Credential=" ++
         pyQuote (Credentials.access_key s.credentials ++ pyStr "/" ++
           credentialScope s d) ['~'],
       pyStr "X-Amz-Date=" ++ a,
       pyStr "X-Amz-Expires=" ++ intToStr e,
       pyStr "X-Amz-SignedHeaders=host"] ++
      (match s.credentials with
       | .plain _ _ => []
       | .withToken _ _ tok => [pyStr "X-Amz-Security-Token=" ++ pyQuote tok ['~']]) ∧
    ∃ us, generate_presigned_get_object_urls s (keys.map some) e d a = .ok us ∧
      ∀ i (hi : i < keys.length), ∃ l : List PyStr,
        List.Sorted (· ≤ ·) l ∧
        List.Perm l (templateParts s e d a) ∧
        us[i]? = some (s.endpoint_url ++ canonicalUri s keys[i] ++ pyStr "?" ++
          List.intercalate (pyStr "&") l ++ pyStr "&X-Amz-Signature=" ++
          signatureOf s e d a keys[i]) := by
  refine ⟨rfl, keys.map (signedUrlOf s e d a), gen_ok s keys e d a hne hval, ?_⟩
  intro i hi
  refine ⟨pySorted (templateParts s e d a), ?_, ?_, ?_⟩
  · unfold pySorted
    exact List.sorted_insertionSort _ _
  · unfold pySorted
    exact List.perm_insertionSort _ _
  · rw [List.getElem?_map, List.getElem?_eq_getElem hi]
    rfl

/-- Witness for C3 at a concrete token-bearing signer and one key. -/
theorem C3_url_form_and_query_ordering_witness :
    templateParts sampleSignerTok 300 (pyStr "20261012") (pyStr "20261012T101500Z") =
      [pyStr "X-Amz-Algorithm=AWS4-HMAC-SHA256",
       pyStr "X-Amz-Credential=" ++
         pyQuote (Credentials.access_key sampleSignerTok.credentials ++ pyStr "/" ++
           credentialScope sampleSignerTok (pyStr "20261012")) ['~'],
       pyStr "X-Amz-Date=" ++ pyStr "20261012T101500Z",
       pyStr "X-Amz-Expires=" ++ intToStr 300,
       pyStr "X-Amz-SignedHeaders=host"] ++
      (match sampleSignerTok.credentials with
       | .plain _ _ => []
       | .withToken _ _ tok => [pyStr "X-Amz-Security-Token=" ++ pyQuote tok ['~']]) ∧
    ∃ us, generate_presigned_get_object_urls sampleSignerTok
        ([pyStr "a b.txt"].map some) 300 (pyStr "20261012") (pyStr "20261012T101500Z") =
        .ok us ∧
      ∀ i (hi : i < [pyStr "a b.txt"].length), ∃ l : List PyStr,
        List.Sorted (· ≤ ·) l ∧
        List.Perm l (templateParts sampleSignerTok 300
          (pyStr "20261012") (pyStr "20261012T101500Z")) ∧
        us[i]? = some (sampleSignerTok.endpoint_url ++
          canonicalUri sampleSignerTok ([pyStr "a b.txt"][i]) ++ pyStr "?" ++
          List.intercalate (pyStr "&") l ++ pyStr "&X-Amz-Signature=" ++
          signatureOf sampleSignerTok 300 (pyStr "20261012") (pyStr "20261012T101500Z")
            ([pyStr "a b.txt"][i])) :=
  C3_url_form_and_query_ordering sampleSignerTok [pyStr "a b.txt"] 300
    (pyStr "20261012") (pyStr "20261012T101500Z") (by decide) (by decide)

/-- C8: the `X-Amz-Security-Token` query parameter appears among the template
parameters — and hence, via the template joined into every URL — exactly when
the credentials carry a session token, and then its value is the verbatim
token percent-encoded with `~` safe. -/
theorem C8_security_token_iff (s : FastS3UrlSigner) (keys : List PyStr)
    (e : Int) (d a : PyStr) (hne : keys ≠ []) (hval : [] ∉ keys) :
    ((∃ v, (pyStr "X-Amz-Security-Token=" ++ v) ∈ templateParts s e d a) ↔
      Credentials.hasToken s.credentials = true) ∧
    (∀ ak sk tok, s.credentials = .withToken ak sk tok →
      (pyStr "X-Amz-Security-Token=" ++ pyQuote tok ['~']) ∈ templateParts s e d a) ∧
    (∀ p : PyStr, p ∈ pySorted (templateParts s e d a) ↔ p ∈ templateParts s e d a) ∧
    ∃ us, generate_presigned_get_object_urls s (keys.map some) e d a = .ok us ∧
      ∀ i (hi : i < keys.length),
        us[i]? = some (s.endpoint_url ++ canonicalUri s keys[i] ++ pyStr "?" ++
          List.intercalate (pyStr "&") (pySorted (templateParts s e d a)) ++
          pyStr "&X-Amz-Signature=" ++ signatureOf s e d a keys[i]) := by
  refine ⟨⟨?_, ?_⟩, ?_, ?_, keys.map (signedUrlOf s e d a),
    gen_ok s keys e d a hne hval, ?_⟩
  · rintro ⟨v, hv⟩
    cases hcr : s.credentials with
    | withToken ak sk tok => simp [Credentials.hasToken]
    | plain ak sk =>
      exfalso
      simp only [templateParts, hcr, List.append_nil, List.mem_cons,
        List.mem_singleton, List.not_mem_nil, or_false] at hv
      rcases hv with h | h | h | h | h
      · exact append_ne_of_index_ne (pyStr "X-Amz-Security-Token=")
          (pyStr "X-Amz-Algorithm=AWS4-HMAC-SHA256") v [] 6
          (by decide) (by decide) (by decide) (by rw [List.append_nil]; exact h)
      · exact append_ne_of_index_ne (pyStr "X-Amz-Security-Token=")
          (pyStr "X-Amz-Credential=") v _ 6
          (by decide) (by decide) (by decide) h
      · exact append_ne_of_index_ne (pyStr "X-Amz-Security-Token=")
          (pyStr "X-Amz-Date=") v _ 6
          (by decide) (by decide) (by decide) h
      · exact append_ne_of_index_ne (pyStr "X-Amz-Security-Token=")
          (pyStr "X-Amz-Expires=") v _ 6
          (by decide) (by decide) (by decide) h
      · exact append_ne_of_index_ne (pyStr "X-Amz-Security-Token=")
          (pyStr "X-Amz-SignedHeaders=host") v [] 7
          (by decide) (by decide) (by decide) (by rw [List.append_nil]; exact h)
  · intro ht
    cases hcr : s.credentials with
    | plain ak sk =>
      rw [hcr] at ht
      simp [Credentials.hasToken] at ht
    | withToken ak sk tok =>
      exact ⟨pyQuote tok ['~'], by simp [templateParts, hcr]⟩
  · intro ak sk tok hcr
    simp [templateParts, hcr]
  · intro p
    unfold pySorted
    exact (List.perm_insertionSort _ _).mem_iff
  · intro i hi
    rw [List.getElem?_map, List.getElem?_eq_getElem hi]
    rfl

/-- Witness for C8 at a concrete token-bearing signer and one key. -/
theorem C8_security_token_iff_witness :
    ((∃ v, (pyStr "X-Amz-Security-Token=" ++ v) ∈
        templateParts sampleSignerTok 300 (pyStr "20261012") (pyStr "20261012T101500Z")) ↔
      Credentials.hasToken sampleSignerTok.credentials = true) ∧
    (∀ ak sk tok, sampleSignerTok.credentials = .withToken ak sk tok →
      (pyStr "X-Amz-Security-Token=" ++ pyQuote tok ['~']) ∈
        templateParts sampleSignerTok 300 (pyStr "20261012") (pyStr "20261012T101500Z")) ∧
    (∀ p : PyStr, p ∈ pySorted (templateParts sampleSignerTok 300
        (pyStr "20261012") (pyStr "20261012T101500Z")) ↔
      p ∈ templateParts sampleSignerTok 300 (pyStr "20261012") (pyStr "20261012T101500Z")) ∧
    ∃ us, generate_presigned_get_object_urls sampleSignerTok
        ([pyStr "a b.txt"].map some) 300 (pyStr "20261012") (pyStr "20261012T101500Z") =
        .ok us ∧
      ∀ i (hi : i < [pyStr "a b.txt"].length),
        us[i]? = some (sampleSignerTok.endpoint_url ++
          canonicalUri sampleSignerTok ([pyStr "a b.txt"][i]) ++ pyStr "?" ++
          List.intercalate (pyStr "&") (pySorted (templateParts sampleSignerTok 300
            (pyStr "20261012") (pyStr "20261012T101500Z"))) ++
          pyStr "&X-Amz-Signature=" ++ signatureOf sampleSignerTok 300
            (pyStr "20261012") (pyStr "20261012T101500Z") ([pyStr "a b.txt"][i])) :=
  C8_security_token_iff sampleSignerTok [pyStr "a b.txt"] 300
    (pyStr "20261012") (pyStr "20261012T101500Z") (by decide) (by decide)
